import Mathlib

/-!
Verification of the spd-logger bounded message queue and logging pipeline.

The C++ `MessageBuffer` (src/buffer.hpp) is a mutex-and-condition-variable
bounded FIFO queue.  We model its state as a record of the fields guarded by
the mutex: the internal `std::queue<std::string>` (a `List String`, head =
front), the immutable `max_capacity`, and the `is_shutdown` flag.  A blocking
call (`push` on a full open queue, `pop` on an empty open queue) cannot
complete in a sequential model, so the completed-call semantics of `push` and
`pop` return `Option`: `none` means the call blocks, `some r` gives the C++
return value together with the post state.
-/

namespace SpdLogger

set_option maxRecDepth 10000

structure MessageBuffer where
  buffer : List String
  max_capacity : Nat
  is_shutdown : Bool
deriving DecidableEq, Repr

namespace MessageBuffer

/-- The constructor `MessageBuffer::MessageBuffer(size_t capacity)`:
throws `std::invalid_argument` when `capacity == 0`, otherwise yields a queue
with the given capacity, an empty internal queue and the shutdown flag clear. -/
def mkChecked (capacity : Nat) : Except String MessageBuffer :=
  if capacity = 0 then
    .error "Capacidade do buffer deve ser maior que zero"
  else
    .ok { buffer := [], max_capacity := capacity, is_shutdown := false }

/-- The state of a freshly constructed buffer of capacity `c`. -/
def init (capacity : Nat) : MessageBuffer :=
  { buffer := [], max_capacity := capacity, is_shutdown := false }

/-- `MessageBuffer::push`: waits until `buffer.size() < max_capacity ||
is_shutdown`; once awake, returns `false` (no append) if shut down, else
appends at the tail and returns `true`.  `none` models the blocked call
(full and open). -/
def push (q : MessageBuffer) (m : String) : Option (Bool × MessageBuffer) :=
  if q.is_shutdown then
    some (false, q)
  else if q.buffer.length < q.max_capacity then
    some (true, { q with buffer := q.buffer ++ [m] })
  else
    none

/-- `MessageBuffer::pop`: waits until `!buffer.empty() || is_shutdown`; once
awake, returns `false` (modelled `none` in the first component) if shut down
and empty, else removes and returns the front element.  The outer `none`
models the blocked call (empty and open). -/
def pop (q : MessageBuffer) : Option (Option String × MessageBuffer) :=
  match q.buffer with
  | m :: rest => some (some m, { q with buffer := rest })
  | [] => if q.is_shutdown then some (none, q) else none

/-- `MessageBuffer::shutdown`: sets the shutdown flag (and wakes all waiters,
which in this completed-call model is implicit). -/
def shutdown (q : MessageBuffer) : MessageBuffer :=
  { q with is_shutdown := true }

/-- `MessageBuffer::full`: `buffer.size() >= max_capacity`. -/
def full (q : MessageBuffer) : Bool :=
  decide (q.max_capacity ≤ q.buffer.length)

/-- `MessageBuffer::empty`: `buffer.empty()`. -/
def empty (q : MessageBuffer) : Bool :=
  q.buffer.isEmpty

/-- `MessageBuffer::size`: `buffer.size()`. -/
def size (q : MessageBuffer) : Nat :=
  q.buffer.length

/-- `MessageBuffer::capacity`: the immutable `max_capacity`. -/
def capacity (q : MessageBuffer) : Nat :=
  q.max_capacity

end MessageBuffer

/-- One completed client call on the buffer. -/
inductive BufferOp where
  | pushOp (m : String)
  | popOp
  | shutdownOp
deriving DecidableEq, Repr

/-- The state reached after a call completes; a blocked call (`none`) leaves
the state unchanged (the waiting thread has not yet mutated anything). -/
def applyOp (q : MessageBuffer) : BufferOp → MessageBuffer
  | .pushOp m => ((MessageBuffer.push q m).map Prod.snd).getD q
  | .popOp => ((MessageBuffer.pop q).map Prod.snd).getD q
  | .shutdownOp => MessageBuffer.shutdown q

/-- Run a sequence of completed calls from a given state. -/
def runOps (q : MessageBuffer) (ops : List BufferOp) : MessageBuffer :=
  ops.foldl applyOp q

/-- `n` successive completed `pop` calls, collecting the successfully popped
messages in order; stops early at a closed-and-empty result or a blocked
call. -/
def popSeq : Nat → MessageBuffer → List String × MessageBuffer
  | 0, q => ([], q)
  | n + 1, q =>
    match MessageBuffer.pop q with
    | some (some m, r) =>
      let p := popSeq n r
      (m :: p.1, p.2)
    | some (none, r) => ([], r)
    | none => ([], q)

/-- A sequence of `push` calls that must all succeed: `none` when any call
blocks or returns `false`. -/
def pushSeq : List String → MessageBuffer → Option MessageBuffer
  | [], q => some q
  | m :: ms, q =>
    match MessageBuffer.push q m with
    | some (true, r) => pushSeq ms r
    | _ => none

/-! ## Logger (src/logger.hpp) -/

/-- `enum class LogLevel` from src/logger.hpp. -/
inductive LogLevel where
  | INFO
  | WARNING
  | ERROR
deriving DecidableEq, Repr

/-- `Logger::level_to_string` (the switch covers every enumerator, so the
trailing `return "UNKNOWN"` is unreachable). -/
def level_to_string : LogLevel → String
  | .INFO => "INFO"
  | .WARNING => "WARNING"
  | .ERROR => "ERROR"

/-- The per-character branch of `Logger::escape_json_string`'s loop. -/
def escapeChar (c : Char) : List Char :=
  if c = Char.ofNat 34 then [Char.ofNat 92, Char.ofNat 34]
  else if c = Char.ofNat 92 then [Char.ofNat 92, Char.ofNat 92]
  else if c = Char.ofNat 8 then [Char.ofNat 92, Char.ofNat 98]
  else if c = Char.ofNat 12 then [Char.ofNat 92, Char.ofNat 102]
  else if c = Char.ofNat 10 then [Char.ofNat 92, Char.ofNat 110]
  else if c = Char.ofNat 13 then [Char.ofNat 92, Char.ofNat 114]
  else if c = Char.ofNat 9 then [Char.ofNat 92, Char.ofNat 116]
  else [c]

/-- `Logger::escape_json_string`, on the character sequence of the input. -/
def escape_json_string (s : List Char) : List Char :=
  (s.map escapeChar).flatten

/-- Two-digit zero padding, as produced by `std::put_time` fields `%H`, `%M`,
`%S`, `%m`, `%d` for in-range values. -/
def pad2 (n : Nat) : String :=
  if n < 10 then "0" ++ toString n else toString n

/-- Three-digit zero padding, as produced by
`ss << std::setfill(48) << std::setw(3) << ms` in `get_current_timestamp`. -/
def pad3 (n : Nat) : String :=
  if n < 10 then "00" ++ toString n
  else if n < 100 then "0" ++ toString n
  else toString n

/-- `Logger::get_current_timestamp`, with the wall-clock reading (the UTC
calendar components and the millisecond remainder of `now`) made an explicit
input: `"%Y-%m-%dT%H:%M:%S"` followed by `"." + 3-digit ms + "Z"`. -/
def get_current_timestamp (year month day hour minute second ms : Nat) : String :=
  toString year ++ "-" ++ pad2 month ++ "-" ++ pad2 day ++ "T" ++
    pad2 hour ++ ":" ++ pad2 minute ++ ":" ++ pad2 second ++ "." ++ pad3 ms ++ "Z"

/-- `Logger::generate_formatted_json_log`, with the timestamp string (the one
wall-clock dependency) passed explicitly.  Byte-for-byte the stream writes of
the C++ function; `\x7b` and `\x7d` are the literal brace characters. -/
def generate_formatted_json_log (ts message : String) (producer_id : Int)
    (level : LogLevel) : String :=
  "\x7b\n" ++
  "  \"timestamp\": \"" ++ String.mk (escape_json_string ts.data) ++ "\",\n" ++
  "  \"level\": \"" ++ String.mk (escape_json_string (level_to_string level).data) ++ "\",\n" ++
  "  \"producer_id\": " ++ toString producer_id ++ ",\n" ++
  "  \"message\": \"" ++ String.mk (escape_json_string message.data) ++ "\"\n" ++
  "\x7d,"

/-- `Logger::log`: formats the record, pushes it, and returns the record
(modelled `some formatted`) exactly when the push returned `true`, `nullptr`
(modelled `none`) when it returned `false`.  The outer `none` is the blocked
push. -/
def Logger.log (q : MessageBuffer) (ts message : String) (level : LogLevel)
    (producer_id : Int) : Option (Option String × MessageBuffer) :=
  let formatted := generate_formatted_json_log ts message producer_id level
  match MessageBuffer.push q formatted with
  | none => none
  | some (ok, r) => some (if ok then some formatted else none, r)

/-! ## Producer (src/producer.hpp) -/

/-- `Producer::get_random_log_level`, with the uniform `[1,100]` draw made an
explicit input. -/
def get_random_log_level (draw : Nat) : LogLevel :=
  if draw ≤ 70 then .INFO
  else if draw ≤ 95 then .WARNING
  else .ERROR

/-- `Producer::logging_routine`, per iteration: read `is_running` (the `Bool`
of the step), and if still running push the message the iteration generates
(the `String` of the step), then continue regardless of the push result; if
the flag read is false, exit the loop.  Returns the completed push results in
order together with the final buffer state; `none` models the thread parked
forever inside a blocked push. -/
def logging_routine : List (Bool × String) → MessageBuffer →
    Option (List Bool × MessageBuffer)
  | [], q => some ([], q)
  | (flag, m) :: steps, q =>
    if flag then
      match MessageBuffer.push q m with
      | none => none
      | some (ok, r) =>
        match logging_routine steps r with
        | none => none
        | some (results, qf) => some (ok :: results, qf)
    else
      some ([], q)

/-! ## JSON string-body validity (RFC 8259 §7, without the unused u-escape) -/

/-- Checks that a character sequence is a syntactically valid JSON string
body: control characters (below 0x20) and the quote never appear raw, and a
backslash is always followed by a legal escape character. -/
def validJsonStringBody : List Char → Bool
  | [] => true
  | c :: rest =>
    if c = Char.ofNat 92 then
      match rest with
      | [] => false
      | e :: rest2 =>
        (e = Char.ofNat 34 || e = Char.ofNat 92 || e = Char.ofNat 47 ||
         e = Char.ofNat 98 || e = Char.ofNat 102 || e = Char.ofNat 110 ||
         e = Char.ofNat 114 || e = Char.ofNat 116) && validJsonStringBody rest2
    else
      decide (c ≠ Char.ofNat 34 ∧ 32 ≤ c.toNat) && validJsonStringBody rest

/-- The characters `Logger::escape_json_string` actually neutralizes: anything
at or above 0x20 (quote and backslash get escaped) plus the five control
characters with dedicated escapes. -/
def neutralizable (c : Char) : Bool :=
  decide (32 ≤ c.toNat) || c = Char.ofNat 8 || c = Char.ofNat 9 ||
    c = Char.ofNat 10 || c = Char.ofNat 12 || c = Char.ofNat 13

/-- Decimal-digit test on the character's code point. -/
def isDigitChar (c : Char) : Bool :=
  decide (48 ≤ c.toNat ∧ c.toNat ≤ 57)

/-- A character that needs no escaping at all inside a JSON string body:
printable (code point at least 0x20) and neither the quote nor the
backslash. -/
def goodChar (c : Char) : Bool :=
  decide (32 ≤ c.toNat) && !(decide (c = Char.ofNat 34)) && !(decide (c = Char.ofNat 92))

/-- Shape check for an ISO-8601 UTC timestamp with millisecond precision:
`YYYY-MM-DDThh:mm:ss.mmmZ`. -/
def isIso8601UTCms (s : String) : Bool :=
  match s.data with
  | [y1, y2, y3, y4, d1, mo1, mo2, d2, da1, da2, t1, h1, h2, c1, mi1, mi2,
     c2, s1, s2, p1, ms1, ms2, ms3, z1] =>
    isDigitChar y1 && isDigitChar y2 && isDigitChar y3 && isDigitChar y4 &&
    d1 = Char.ofNat 45 && isDigitChar mo1 && isDigitChar mo2 &&
    d2 = Char.ofNat 45 && isDigitChar da1 && isDigitChar da2 &&
    t1 = Char.ofNat 84 && isDigitChar h1 && isDigitChar h2 &&
    c1 = Char.ofNat 58 && isDigitChar mi1 && isDigitChar mi2 &&
    c2 = Char.ofNat 58 && isDigitChar s1 && isDigitChar s2 &&
    p1 = Char.ofNat 46 && isDigitChar ms1 && isDigitChar ms2 && isDigitChar ms3 &&
    z1 = Char.ofNat 90
  | _ => false

/-! ## Invariant lemmas -/

theorem applyOp_max_capacity (q : MessageBuffer) (op : BufferOp) :
    (applyOp q op).max_capacity = q.max_capacity := by
  cases op with
  | pushOp m =>
    simp only [applyOp, MessageBuffer.push]
    split
    · rfl
    · split <;> rfl
  | popOp =>
    simp only [applyOp, MessageBuffer.pop]
    cases hb : q.buffer with
    | nil => by_cases hs : q.is_shutdown = true <;> simp [hs]
    | cons a l => rfl
  | shutdownOp => rfl

theorem applyOp_length_le (q : MessageBuffer) (op : BufferOp)
    (h : q.buffer.length ≤ q.max_capacity) :
    (applyOp q op).buffer.length ≤ (applyOp q op).max_capacity := by
  rw [applyOp_max_capacity]
  cases op with
  | pushOp m =>
    simp only [applyOp, MessageBuffer.push]
    split
    · exact h
    · split
      · show (q.buffer ++ [m]).length ≤ q.max_capacity
        rename_i hlt
        simp only [List.length_append, List.length_cons, List.length_nil]
        omega
      · exact h
  | popOp =>
    simp only [applyOp, MessageBuffer.pop]
    cases hb : q.buffer with
    | nil => by_cases hs : q.is_shutdown = true <;> simp [hs, hb]
    | cons a l =>
      show l.length ≤ q.max_capacity
      rw [hb] at h
      simp only [List.length_cons] at h
      omega
  | shutdownOp => exact h

theorem runOps_max_capacity (ops : List BufferOp) (q : MessageBuffer) :
    (runOps q ops).max_capacity = q.max_capacity := by
  induction ops generalizing q with
  | nil => rfl
  | cons op ops ih =>
    simp only [runOps, List.foldl_cons] at *
    rw [ih (applyOp q op), applyOp_max_capacity]

theorem runOps_length_le (ops : List BufferOp) (q : MessageBuffer)
    (h : q.buffer.length ≤ q.max_capacity) :
    (runOps q ops).buffer.length ≤ (runOps q ops).max_capacity := by
  induction ops generalizing q with
  | nil => exact h
  | cons op ops ih =>
    simp only [runOps, List.foldl_cons] at *
    exact ih (applyOp q op) (by simpa [applyOp_max_capacity] using applyOp_length_le q op h)

theorem popSeq_take (n : Nat) (buf : List String) (cap : Nat) (sd : Bool)
    (h : n ≤ buf.length) :
    popSeq n ⟨buf, cap, sd⟩ = (buf.take n, ⟨buf.drop n, cap, sd⟩) := by
  induction n generalizing buf with
  | zero => simp [popSeq]
  | succ n ih =>
    cases buf with
    | nil => simp at h
    | cons a l =>
      simp only [popSeq, MessageBuffer.pop]
      rw [ih l (by simpa using Nat.le_of_succ_le_succ h)]
      simp

theorem pushSeq_append (ms : List String) (buf : List String) (cap : Nat)
    (h : buf.length + ms.length ≤ cap) :
    pushSeq ms ⟨buf, cap, false⟩ = some ⟨buf ++ ms, cap, false⟩ := by
  induction ms generalizing buf with
  | nil => simp [pushSeq]
  | cons m ms ih =>
    simp only [pushSeq, MessageBuffer.push]
    rw [if_neg (by simp), if_pos (by simp at h; omega)]
    simp only []
    rw [ih (buf ++ [m]) (by simp at h ⊢; omega)]
    simp

/-! ## Escaping and timestamp-shape lemmas -/

theorem escapeChar_of_plain (c : Char)
    (h34 : c ≠ Char.ofNat 34) (h92 : c ≠ Char.ofNat 92)
    (h8 : c ≠ Char.ofNat 8) (h12 : c ≠ Char.ofNat 12) (h10 : c ≠ Char.ofNat 10)
    (h13 : c ≠ Char.ofNat 13) (h9 : c ≠ Char.ofNat 9) :
    escapeChar c = [c] := by
  simp [escapeChar, h34, h92, h8, h12, h10, h13, h9]

theorem escapeChar_good (c : Char) (h : goodChar c = true) : escapeChar c = [c] := by
  simp only [goodChar, Bool.and_eq_true, Bool.not_eq_true', decide_eq_true_eq,
    decide_eq_false_iff_not] at h
  obtain ⟨⟨h32, h34⟩, h92⟩ := h
  have h8 : c ≠ Char.ofNat 8 := by intro e; subst e; revert h32; decide
  have h12 : c ≠ Char.ofNat 12 := by intro e; subst e; revert h32; decide
  have h10 : c ≠ Char.ofNat 10 := by intro e; subst e; revert h32; decide
  have h13 : c ≠ Char.ofNat 13 := by intro e; subst e; revert h32; decide
  have h9 : c ≠ Char.ofNat 9 := by intro e; subst e; revert h32; decide
  exact escapeChar_of_plain c h34 h92 h8 h12 h10 h13 h9

theorem goodChar_of_digit (c : Char) (h : isDigitChar c = true) : goodChar c = true := by
  rw [isDigitChar, decide_eq_true_eq] at h
  have h34 : c ≠ Char.ofNat 34 := by intro e; subst e; revert h; decide
  have h92 : c ≠ Char.ofNat 92 := by intro e; subst e; revert h; decide
  simp [goodChar, h34, h92]
  omega

theorem neutralizable_of_good (c : Char) (h : goodChar c = true) :
    neutralizable c = true := by
  simp only [goodChar, Bool.and_eq_true, decide_eq_true_eq] at h
  simp [neutralizable, h.1.1]

theorem validJsonStringBody_escapeChar (c : Char) (rest : List Char)
    (hc : neutralizable c = true) (hrest : validJsonStringBody rest = true) :
    validJsonStringBody (escapeChar c ++ rest) = true := by
  by_cases h34 : c = Char.ofNat 34
  · subst h34; exact hrest
  by_cases h92 : c = Char.ofNat 92
  · subst h92; exact hrest
  by_cases h8 : c = Char.ofNat 8
  · subst h8; exact hrest
  by_cases h12 : c = Char.ofNat 12
  · subst h12; exact hrest
  by_cases h10 : c = Char.ofNat 10
  · subst h10; exact hrest
  by_cases h13 : c = Char.ofNat 13
  · subst h13; exact hrest
  by_cases h9 : c = Char.ofNat 9
  · subst h9; exact hrest
  rw [escapeChar_of_plain c h34 h92 h8 h12 h10 h13 h9]
  have h32 : 32 ≤ c.toNat := by
    simp only [neutralizable, Bool.or_eq_true, decide_eq_true_eq] at hc
    rcases hc with ((((h | h) | h) | h) | h) | h
    · exact h
    all_goals exact absurd h (by assumption)
  rw [List.singleton_append]
  unfold validJsonStringBody
  rw [if_neg h92, hrest]
  simp [h34, h32]

theorem validJsonStringBody_escape (s : List Char)
    (h : s.all neutralizable = true) :
    validJsonStringBody (escape_json_string s) = true := by
  induction s with
  | nil => rfl
  | cons c cs ih =>
    simp only [List.all_cons, Bool.and_eq_true] at h
    have step : escape_json_string (c :: cs) = escapeChar c ++ escape_json_string cs := by
      simp [escape_json_string]
    rw [step]
    exact validJsonStringBody_escapeChar c _ h.1 (ih h.2)

theorem escape_eq_self_of_good (s : List Char) (h : s.all goodChar = true) :
    escape_json_string s = s := by
  induction s with
  | nil => rfl
  | cons c cs ih =>
    simp only [List.all_cons, Bool.and_eq_true] at h
    have step : escape_json_string (c :: cs) = escapeChar c ++ escape_json_string cs := by
      simp [escape_json_string]
    rw [step, escapeChar_good c h.1, ih h.2]
    rfl

theorem valid_of_all_good (s : List Char) (h : s.all goodChar = true) :
    validJsonStringBody s = true := by
  have h2 : s.all neutralizable = true := by
    rw [List.all_eq_true] at h ⊢
    exact fun c hc => neutralizable_of_good c (h c hc)
  have := validJsonStringBody_escape s h2
  rwa [escape_eq_self_of_good s h] at this

theorem all_good_of_all_digit (s : List Char) (h : s.all isDigitChar = true) :
    s.all goodChar = true := by
  rw [List.all_eq_true] at h ⊢
  exact fun c hc => goodChar_of_digit c (h c hc)

theorem pad2_shape (n : Nat) (h : n < 100) :
    (pad2 n).data.length = 2 ∧ (pad2 n).data.all isDigitChar = true := by
  have hall : ∀ i : Fin 100,
      (pad2 i.1).data.length = 2 ∧ (pad2 i.1).data.all isDigitChar = true := by decide
  exact hall ⟨n, h⟩

theorem pad3_shape (n : Nat) (h : n < 1000) :
    (pad3 n).data.length = 3 ∧ (pad3 n).data.all isDigitChar = true := by
  have hall : ∀ i : Fin 1000,
      (pad3 i.1).data.length = 3 ∧ (pad3 i.1).data.all isDigitChar = true := by decide
  exact hall ⟨n, h⟩

theorem exists_two_of_length (l : List Char) (h : l.length = 2) :
    ∃ a b, l = [a, b] := by
  match l, h with
  | [a, b], _ => exact ⟨a, b, rfl⟩

theorem exists_three_of_length (l : List Char) (h : l.length = 3) :
    ∃ a b c, l = [a, b, c] := by
  match l, h with
  | [a, b, c], _ => exact ⟨a, b, c, rfl⟩

theorem exists_four_of_length (l : List Char) (h : l.length = 4) :
    ∃ a b c d, l = [a, b, c, d] := by
  match l, h with
  | [a, b, c, d], _ => exact ⟨a, b, c, d, rfl⟩

theorem timestamp_all_good (year month day hour minute second ms : Nat)
    (hyd : (toString year).data.all isDigitChar = true)
    (hmo : month < 100) (hda : day < 100) (hho : hour < 100)
    (hmi : minute < 100) (hse : second < 100) (hms : ms < 1000) :
    (get_current_timestamp year month day hour minute second ms).data.all goodChar = true := by
  simp only [get_current_timestamp, String.data_append, List.all_append, Bool.and_eq_true]
  repeat' apply And.intro
  all_goals
    first
      | decide
      | exact all_good_of_all_digit _ hyd
      | exact all_good_of_all_digit _ (pad2_shape month hmo).2
      | exact all_good_of_all_digit _ (pad2_shape day hda).2
      | exact all_good_of_all_digit _ (pad2_shape hour hho).2
      | exact all_good_of_all_digit _ (pad2_shape minute hmi).2
      | exact all_good_of_all_digit _ (pad2_shape second hse).2
      | exact all_good_of_all_digit _ (pad3_shape ms hms).2

theorem timestamp_iso_shape (year month day hour minute second ms : Nat)
    (hy4 : (toString year).data.length = 4)
    (hyd : (toString year).data.all isDigitChar = true)
    (hmo : month < 100) (hda : day < 100) (hho : hour < 100)
    (hmi : minute < 100) (hse : second < 100) (hms : ms < 1000) :
    isIso8601UTCms (get_current_timestamp year month day hour minute second ms) = true := by
  obtain ⟨y1, y2, y3, y4, hy⟩ := exists_four_of_length _ hy4
  obtain ⟨a1, a2, ha⟩ := exists_two_of_length _ (pad2_shape month hmo).1
  obtain ⟨b1, b2, hb⟩ := exists_two_of_length _ (pad2_shape day hda).1
  obtain ⟨c1, c2, hc⟩ := exists_two_of_length _ (pad2_shape hour hho).1
  obtain ⟨d1, d2, hd⟩ := exists_two_of_length _ (pad2_shape minute hmi).1
  obtain ⟨e1, e2, he⟩ := exists_two_of_length _ (pad2_shape second hse).1
  obtain ⟨f1, f2, f3, hf⟩ := exists_three_of_length _ (pad3_shape ms hms).1
  have hyd2 := hyd
  rw [hy] at hyd2
  have had := (pad2_shape month hmo).2
  rw [ha] at had
  have hbd := (pad2_shape day hda).2
  rw [hb] at hbd
  have hcd := (pad2_shape hour hho).2
  rw [hc] at hcd
  have hdd := (pad2_shape minute hmi).2
  rw [hd] at hdd
  have hed := (pad2_shape second hse).2
  rw [he] at hed
  have hfd := (pad3_shape ms hms).2
  rw [hf] at hfd
  simp only [List.all_cons, List.all_nil, Bool.and_eq_true, Bool.and_true] at hyd2 had hbd hcd hdd hed hfd
  have hdata : (get_current_timestamp year month day hour minute second ms).data
      = [y1, y2, y3, y4, Char.ofNat 45, a1, a2, Char.ofNat 45, b1, b2,
         Char.ofNat 84, c1, c2, Char.ofNat 58, d1, d2, Char.ofNat 58, e1, e2,
         Char.ofNat 46, f1, f2, f3, Char.ofNat 90] := by
    simp [get_current_timestamp, String.data_append, hy, ha, hb, hc, hd, he, hf]
  rw [isIso8601UTCms, hdata]
  simp [hyd2.1, hyd2.2.1, hyd2.2.2.1, hyd2.2.2.2, had.1, had.2, hbd.1, hbd.2,
    hcd.1, hcd.2, hdd.1, hdd.2, hed.1, hed.2, hfd.1, hfd.2.1, hfd.2.2]

/-! ## Claim theorems -/

/-- C1: for every capacity `c > 0` and every sequence of completed push/pop
(and shutdown) calls starting from a freshly constructed buffer, the internal
queue length stays between `0` and `c` after every operation.  (`ops` ranges
over all sequences, so the bound holds after every prefix.) -/
theorem capacity_invariant (c : Nat) (ops : List BufferOp) (hc : 0 < c) :
    0 ≤ (runOps (MessageBuffer.init c) ops).buffer.length ∧
    (runOps (MessageBuffer.init c) ops).buffer.length ≤ c := by
  refine ⟨Nat.zero_le _, ?_⟩
  have h := runOps_length_le ops (MessageBuffer.init c) (by simp [MessageBuffer.init])
  rwa [runOps_max_capacity ops (MessageBuffer.init c)] at h

/-- Witness for C1 at capacity 2 and a concrete operation sequence. -/
theorem capacity_invariant_witness :
    0 ≤ (runOps (MessageBuffer.init 2)
        [.pushOp "a", .pushOp "b", .pushOp "c", .popOp]).buffer.length ∧
    (runOps (MessageBuffer.init 2)
        [.pushOp "a", .pushOp "b", .pushOp "c", .popOp]).buffer.length ≤ 2 :=
  capacity_invariant 2 [.pushOp "a", .pushOp "b", .pushOp "c", .popOp] (by decide)

/-- C6: constructing with capacity `0` (the only `size_t` value `≤ 0`) fails
with a construction-time error, and constructing with any capacity `c > 0`
succeeds and yields an empty, open queue of exactly that capacity. -/
theorem construction (c : Nat) (hc : 0 < c) :
    (MessageBuffer.mkChecked 0).isOk = false ∧
    MessageBuffer.mkChecked c = .ok (MessageBuffer.init c) ∧
    (MessageBuffer.init c).buffer = [] ∧
    (MessageBuffer.init c).is_shutdown = false ∧
    (MessageBuffer.init c).max_capacity = c := by
  refine ⟨rfl, ?_, rfl, rfl, rfl⟩
  simp only [MessageBuffer.mkChecked, MessageBuffer.init]
  rw [if_neg (by omega)]

/-- Witness for C6 at capacity 3. -/
theorem construction_witness :
    (MessageBuffer.mkChecked 0).isOk = false ∧
    MessageBuffer.mkChecked 3 = .ok (MessageBuffer.init 3) ∧
    (MessageBuffer.init 3).buffer = [] ∧
    (MessageBuffer.init 3).is_shutdown = false ∧
    (MessageBuffer.init 3).max_capacity = 3 :=
  construction 3 (by decide)

/-- C7: the concrete capacity-3 scenario: pushes of "a","b","c" succeed, the
push of "d" blocks on the full queue, a pop returns "a", the push of "d" then
succeeds, the next pops return "b","c","d" leaving the queue empty, and after
`shutdown()` the next pop returns the closed/empty sentinel. -/
theorem scenario_capacity_three :
    MessageBuffer.push (MessageBuffer.init 3) "a"
      = some (true, ⟨["a"], 3, false⟩) ∧
    MessageBuffer.push ⟨["a"], 3, false⟩ "b"
      = some (true, ⟨["a", "b"], 3, false⟩) ∧
    MessageBuffer.push ⟨["a", "b"], 3, false⟩ "c"
      = some (true, ⟨["a", "b", "c"], 3, false⟩) ∧
    MessageBuffer.push ⟨["a", "b", "c"], 3, false⟩ "d" = none ∧
    MessageBuffer.pop ⟨["a", "b", "c"], 3, false⟩
      = some (some "a", ⟨["b", "c"], 3, false⟩) ∧
    MessageBuffer.push ⟨["b", "c"], 3, false⟩ "d"
      = some (true, ⟨["b", "c", "d"], 3, false⟩) ∧
    MessageBuffer.pop ⟨["b", "c", "d"], 3, false⟩
      = some (some "b", ⟨["c", "d"], 3, false⟩) ∧
    MessageBuffer.pop ⟨["c", "d"], 3, false⟩
      = some (some "c", ⟨["d"], 3, false⟩) ∧
    MessageBuffer.pop ⟨["d"], 3, false⟩
      = some (some "d", ⟨[], 3, false⟩) ∧
    MessageBuffer.shutdown ⟨[], 3, false⟩ = ⟨[], 3, true⟩ ∧
    MessageBuffer.pop ⟨[], 3, true⟩ = some (none, ⟨[], 3, true⟩) := by
  refine ⟨?_, ?_, ?_, ?_, ?_, ?_, ?_, ?_, ?_, rfl, rfl⟩ <;> rfl

/-- C2: after `shutdown()` on a queue holding N buffered items, the next N
pops succeed and return exactly those N items in FIFO order, the (N+1)-th pop
returns the closed/empty sentinel without changing the state, every
subsequent push returns `false` and leaves the state (hence the contents)
unchanged, and `shutdown` itself clears no buffered item. -/
theorem shutdown_drain (q : MessageBuffer) :
    popSeq q.buffer.length (MessageBuffer.shutdown q)
      = (q.buffer, ⟨[], q.max_capacity, true⟩) ∧
    MessageBuffer.pop ⟨[], q.max_capacity, true⟩
      = some (none, ⟨[], q.max_capacity, true⟩) ∧
    (∀ m, MessageBuffer.push (MessageBuffer.shutdown q) m
      = some (false, MessageBuffer.shutdown q)) ∧
    (MessageBuffer.shutdown q).buffer = q.buffer := by
  obtain ⟨buf, cap, sd⟩ := q
  refine ⟨?_, rfl, fun m => rfl, rfl⟩
  have h := popSeq_take buf.length buf cap true (Nat.le_refl _)
  simpa using h

/-- C3: from any open queue with room for all of them, a sequence of pushes
all succeeds, appends exactly at the tail, and the subsequent pops return the
whole contents — prior items first, then the pushed items in push order — with
nothing duplicated, dropped or reordered, leaving the queue empty. -/
theorem fifo_order (q : MessageBuffer) (ms : List String)
    (hopen : q.is_shutdown = false)
    (hcap : q.buffer.length + ms.length ≤ q.max_capacity) :
    pushSeq ms q = some ⟨q.buffer ++ ms, q.max_capacity, false⟩ ∧
    popSeq (q.buffer.length + ms.length) ⟨q.buffer ++ ms, q.max_capacity, false⟩
      = (q.buffer ++ ms, ⟨[], q.max_capacity, false⟩) := by
  obtain ⟨buf, cap, sd⟩ := q
  simp only at hopen hcap ⊢
  subst hopen
  refine ⟨pushSeq_append ms buf cap hcap, ?_⟩
  have hlen : buf.length + ms.length = (buf ++ ms).length := by simp
  rw [hlen]
  have h := popSeq_take (buf ++ ms).length (buf ++ ms) cap false (Nat.le_refl _)
  rw [List.take_length, List.drop_length] at h
  exact h

/-- Witness for C3: two pushes into an open 3-slot queue already holding one
item, then three pops in FIFO order. -/
theorem fifo_order_witness :
    pushSeq ["b", "c"] ⟨["a"], 3, false⟩ = some ⟨["a", "b", "c"], 3, false⟩ ∧
    popSeq 3 ⟨["a", "b", "c"], 3, false⟩ = (["a", "b", "c"], ⟨[], 3, false⟩) := by
  have h := fifo_order ⟨["a"], 3, false⟩ ["b", "c"] rfl (by decide)
  simpa using h

/-- C8: the producer's severity draw `d` uniform in [1,100] selects INFO
exactly when `d ≤ 70`, WARNING exactly when `70 < d ≤ 95`, and ERROR
otherwise, realising the ~70/25/5 weighting. -/
theorem severity_thresholds (d : Nat) (h1 : 1 ≤ d) (h2 : d ≤ 100) :
    (get_random_log_level d = LogLevel.INFO ↔ d ≤ 70) ∧
    (get_random_log_level d = LogLevel.WARNING ↔ 70 < d ∧ d ≤ 95) ∧
    (get_random_log_level d = LogLevel.ERROR ↔ 95 < d) := by
  unfold get_random_log_level
  by_cases ha : d ≤ 70 <;> by_cases hb : d ≤ 95 <;> simp [ha, hb] <;> omega

/-- Witness for C8 at the three threshold draws 70, 95 and 96. -/
theorem severity_thresholds_witness :
    (get_random_log_level 70 = LogLevel.INFO ↔ (70 : Nat) ≤ 70) ∧
    ((get_random_log_level 95 = LogLevel.WARNING ↔ 70 < (95 : Nat) ∧ (95 : Nat) ≤ 95) ∧
     (get_random_log_level 96 = LogLevel.ERROR ↔ 95 < (96 : Nat))) :=
  ⟨(severity_thresholds 70 (by decide) (by decide)).1,
   (severity_thresholds 95 (by decide) (by decide)).2.1,
   (severity_thresholds 96 (by decide) (by decide)).2.2⟩

/-- C9: at every state reachable by completed calls from a constructed
buffer, the (side-effect-free, here pure) observers agree: `size` is the
number of buffered items, `empty` holds exactly when that number is 0,
`full` exactly when it equals the capacity, and `capacity` still returns the
construction-time capacity. -/
theorem observers_consistent (c : Nat) (ops : List BufferOp) (hc : 0 < c) :
    MessageBuffer.size (runOps (MessageBuffer.init c) ops)
      = (runOps (MessageBuffer.init c) ops).buffer.length ∧
    (MessageBuffer.empty (runOps (MessageBuffer.init c) ops) = true ↔
      MessageBuffer.size (runOps (MessageBuffer.init c) ops) = 0) ∧
    (MessageBuffer.full (runOps (MessageBuffer.init c) ops) = true ↔
      MessageBuffer.size (runOps (MessageBuffer.init c) ops)
        = MessageBuffer.capacity (runOps (MessageBuffer.init c) ops)) ∧
    MessageBuffer.capacity (runOps (MessageBuffer.init c) ops) = c := by
  have hle : (runOps (MessageBuffer.init c) ops).buffer.length
      ≤ (runOps (MessageBuffer.init c) ops).max_capacity :=
    runOps_length_le ops (MessageBuffer.init c) (by simp [MessageBuffer.init])
  refine ⟨rfl, ?_, ?_, runOps_max_capacity ops (MessageBuffer.init c)⟩
  · simp only [MessageBuffer.empty, MessageBuffer.size]
    cases hb : (runOps (MessageBuffer.init c) ops).buffer <;> simp [hb]
  · simp only [MessageBuffer.full, MessageBuffer.size, MessageBuffer.capacity,
      decide_eq_true_eq]
    omega

/-- Witness for C9 at capacity 2 after two pushes (a full reachable state). -/
theorem observers_consistent_witness :
    MessageBuffer.size (runOps (MessageBuffer.init 2) [.pushOp "a", .pushOp "b"])
      = (runOps (MessageBuffer.init 2) [.pushOp "a", .pushOp "b"]).buffer.length ∧
    (MessageBuffer.empty (runOps (MessageBuffer.init 2) [.pushOp "a", .pushOp "b"]) = true ↔
      MessageBuffer.size (runOps (MessageBuffer.init 2) [.pushOp "a", .pushOp "b"]) = 0) ∧
    (MessageBuffer.full (runOps (MessageBuffer.init 2) [.pushOp "a", .pushOp "b"]) = true ↔
      MessageBuffer.size (runOps (MessageBuffer.init 2) [.pushOp "a", .pushOp "b"])
        = MessageBuffer.capacity (runOps (MessageBuffer.init 2) [.pushOp "a", .pushOp "b"])) ∧
    MessageBuffer.capacity (runOps (MessageBuffer.init 2) [.pushOp "a", .pushOp "b"]) = 2 :=
  observers_consistent 2 [.pushOp "a", .pushOp "b"] (by decide)

/-- C10: `Logger::log` returns the formatted record (non-null) exactly when
the buffer push returns `true`, returns null exactly when the push returns
`false`, blocks exactly when the push blocks, and the returned record is the
formatted string, which is built from the inputs alone and not from the
queue state. -/
theorem log_result_matches_push (q : MessageBuffer) (ts msg : String)
    (lvl : LogLevel) (pid : Int) :
    (∀ r, MessageBuffer.push q (generate_formatted_json_log ts msg pid lvl)
        = some (true, r) →
      Logger.log q ts msg lvl pid
        = some (some (generate_formatted_json_log ts msg pid lvl), r)) ∧
    (∀ r, MessageBuffer.push q (generate_formatted_json_log ts msg pid lvl)
        = some (false, r) →
      Logger.log q ts msg lvl pid = some (none, r)) ∧
    (MessageBuffer.push q (generate_formatted_json_log ts msg pid lvl) = none →
      Logger.log q ts msg lvl pid = none) := by
  refine ⟨fun r h => ?_, fun r h => ?_, fun h => ?_⟩ <;> simp [Logger.log, h]

/-- Witness for C10: an open one-slot queue accepts the record and `log`
returns it; a shut-down queue rejects it and `log` returns null. -/
theorem log_result_matches_push_witness :
    Logger.log (MessageBuffer.init 1) "2025-08-31T16:32:01.123Z" "hello" LogLevel.ERROR 3
      = some (some (generate_formatted_json_log "2025-08-31T16:32:01.123Z" "hello" 3 LogLevel.ERROR),
          ⟨[generate_formatted_json_log "2025-08-31T16:32:01.123Z" "hello" 3 LogLevel.ERROR], 1, false⟩) ∧
    Logger.log (MessageBuffer.shutdown (MessageBuffer.init 1))
        "2025-08-31T16:32:01.123Z" "hello" LogLevel.ERROR 3
      = some (none, MessageBuffer.shutdown (MessageBuffer.init 1)) :=
  ⟨(log_result_matches_push (MessageBuffer.init 1)
      "2025-08-31T16:32:01.123Z" "hello" LogLevel.ERROR 3).1 _ rfl,
   (log_result_matches_push (MessageBuffer.shutdown (MessageBuffer.init 1))
      "2025-08-31T16:32:01.123Z" "hello" LogLevel.ERROR 3).2.1 _ rfl⟩

/-- C4 counterexample: on a closed queue with the running flag still set for
two iterations, `logging_routine` completes two push attempts and both return
`false` — the iteration after the first observed `false` still performs a
push attempt, so the loop does not stop at a failed push. -/
theorem producer_stop_counterexample :
    logging_routine [(true, "x"), (true, "y")]
        (MessageBuffer.shutdown (MessageBuffer.init 3))
      = some ([false, false], MessageBuffer.shutdown (MessageBuffer.init 3)) ∧
    [false, false].length = 2 := by
  exact ⟨rfl, rfl⟩

/-- C4 amended: a `false` push result does not terminate the production
loop; on a closed queue the loop keeps iterating — one failed push attempt
per iteration, leaving the queue unchanged — until the running flag is read
as `false`. -/
theorem producer_loop_governed_by_flag (steps : List (Bool × String))
    (q : MessageBuffer) (h : q.is_shutdown = true) :
    logging_routine steps q
      = some (List.replicate (steps.takeWhile (fun s => s.1)).length false, q) := by
  induction steps with
  | nil => rfl
  | cons s steps ih =>
    obtain ⟨flag, m⟩ := s
    cases flag with
    | false => simp [logging_routine]
    | true =>
      have hpush : MessageBuffer.push q m = some (false, q) := by
        simp [MessageBuffer.push, h]
      simp [logging_routine, hpush, ih, List.takeWhile_cons, List.replicate_succ]

/-- Witness for C4 (amended) on a closed queue with three iterations, the
third with the running flag cleared. -/
theorem producer_loop_governed_by_flag_witness :
    logging_routine [(true, "x"), (true, "y"), (false, "z")]
        (MessageBuffer.shutdown (MessageBuffer.init 3))
      = some (List.replicate
          ([(true, "x"), (true, "y"), (false, "z")].takeWhile (fun s => s.1)).length false,
          MessageBuffer.shutdown (MessageBuffer.init 3)) :=
  producer_loop_governed_by_flag [(true, "x"), (true, "y"), (false, "z")]
    (MessageBuffer.shutdown (MessageBuffer.init 3)) rfl

/-- C5 counterexample: the control character U+0001 is below 0x20, yet
`escape_json_string` passes it through unescaped (its `switch` only handles
quote, backslash and the five controls with dedicated short escapes), so the
escaped text — and hence the message field of a record containing it — is not
a syntactically valid JSON string body: the claimed neutralization of every
control character fails. -/
theorem formatter_escape_counterexample :
    (Char.ofNat 1).toNat < 32 ∧
    escape_json_string [Char.ofNat 1] = [Char.ofNat 1] ∧
    validJsonStringBody (escape_json_string [Char.ofNat 1]) = false ∧
    (generate_formatted_json_log "2025-08-31T16:32:01.123Z"
        (String.mk [Char.ofNat 1]) 1 LogLevel.INFO).data.contains (Char.ofNat 1) = true := by
  decide

/-- C5 (amended): for in-range wall-clock components with a four-digit year,
the formatted record contains the ISO-8601 UTC millisecond timestamp, the
severity name, the numeric source id and the escaped raw message; and for
messages whose characters are printable or among the five escapable controls
(backspace, tab, newline, form feed, carriage return), the escaping
neutralizes every quote, backslash and such control character, leaving each
quoted field a syntactically valid JSON string body. -/
theorem formatter_record (year month day hour minute second ms : Nat)
    (msg : String) (pid : Int) (lvl : LogLevel)
    (hy4 : (toString year).data.length = 4)
    (hyd : (toString year).data.all isDigitChar = true)
    (hmo : month < 100) (hda : day < 100) (hho : hour < 100)
    (hmi : minute < 100) (hse : second < 100) (hms : ms < 1000)
    (hmsg : msg.data.all neutralizable = true) :
    isIso8601UTCms (get_current_timestamp year month day hour minute second ms) = true ∧
    (∃ pre post,
      (generate_formatted_json_log (get_current_timestamp year month day hour minute second ms)
          msg pid lvl).data
        = pre ++ (get_current_timestamp year month day hour minute second ms).data ++ post) ∧
    (∃ pre post,
      (generate_formatted_json_log (get_current_timestamp year month day hour minute second ms)
          msg pid lvl).data
        = pre ++ (level_to_string lvl).data ++ post) ∧
    (∃ pre post,
      (generate_formatted_json_log (get_current_timestamp year month day hour minute second ms)
          msg pid lvl).data
        = pre ++ (toString pid).data ++ post) ∧
    (∃ pre post,
      (generate_formatted_json_log (get_current_timestamp year month day hour minute second ms)
          msg pid lvl).data
        = pre ++ escape_json_string msg.data ++ post) ∧
    validJsonStringBody (escape_json_string msg.data) = true ∧
    validJsonStringBody (escape_json_string
      (get_current_timestamp year month day hour minute second ms).data) = true ∧
    validJsonStringBody (escape_json_string (level_to_string lvl).data) = true := by
  have hgood := timestamp_all_good year month day hour minute second ms hyd hmo hda hho hmi hse hms
  have hts_esc := escape_eq_self_of_good _ hgood
  have hlvl_esc : escape_json_string (level_to_string lvl).data = (level_to_string lvl).data := by
    cases lvl <;> decide
  refine ⟨timestamp_iso_shape year month day hour minute second ms hy4 hyd hmo hda hho hmi hse hms,
    ⟨("\x7b\n" : String).data ++ ("  \"timestamp\": \"" : String).data,
     ("\",\n" : String).data ++ ("  \"level\": \"" : String).data ++
       escape_json_string (level_to_string lvl).data ++
       ("\",\n" : String).data ++ ("  \"producer_id\": " : String).data ++
       (toString pid).data ++ (",\n" : String).data ++
       ("  \"message\": \"" : String).data ++ escape_json_string msg.data ++
       ("\"\n" : String).data ++ ("\x7d," : String).data, ?_⟩,
    ⟨("\x7b\n" : String).data ++ ("  \"timestamp\": \"" : String).data ++
       escape_json_string (get_current_timestamp year month day hour minute second ms).data ++
       ("\",\n" : String).data ++ ("  \"level\": \"" : String).data,
     ("\",\n" : String).data ++ ("  \"producer_id\": " : String).data ++
       (toString pid).data ++ (",\n" : String).data ++
       ("  \"message\": \"" : String).data ++ escape_json_string msg.data ++
       ("\"\n" : String).data ++ ("\x7d," : String).data, ?_⟩,
    ⟨("\x7b\n" : String).data ++ ("  \"timestamp\": \"" : String).data ++
       escape_json_string (get_current_timestamp year month day hour minute second ms).data ++
       ("\",\n" : String).data ++ ("  \"level\": \"" : String).data ++
       escape_json_string (level_to_string lvl).data ++
       ("\",\n" : String).data ++ ("  \"producer_id\": " : String).data,
     (",\n" : String).data ++
       ("  \"message\": \"" : String).data ++ escape_json_string msg.data ++
       ("\"\n" : String).data ++ ("\x7d," : String).data, ?_⟩,
    ⟨("\x7b\n" : String).data ++ ("  \"timestamp\": \"" : String).data ++
       escape_json_string (get_current_timestamp year month day hour minute second ms).data ++
       ("\",\n" : String).data ++ ("  \"level\": \"" : String).data ++
       escape_json_string (level_to_string lvl).data ++
       ("\",\n" : String).data ++ ("  \"producer_id\": " : String).data ++
       (toString pid).data ++ (",\n" : String).data ++
       ("  \"message\": \"" : String).data,
     ("\"\n" : String).data ++ ("\x7d," : String).data, ?_⟩,
    validJsonStringBody_escape msg.data hmsg, ?_, ?_⟩
  · conv_lhs => rw [generate_formatted_json_log]
    rw [hlvl_esc]
    conv_lhs => rw [hts_esc]
    simp [String.data_append, List.append_assoc]
  · conv_lhs => rw [generate_formatted_json_log]
    rw [hlvl_esc]
    simp [String.data_append, List.append_assoc]
  · conv_lhs => rw [generate_formatted_json_log]
    simp [String.data_append, List.append_assoc]
  · conv_lhs => rw [generate_formatted_json_log]
    simp [String.data_append, List.append_assoc]
  · rw [hts_esc]
    exact valid_of_all_good _ hgood
  · rw [hlvl_esc]
    cases lvl <;> decide

/-- Witness for C5 (amended) at the wall clock 2025-08-31 16:32:01.123 UTC,
message `hello "world"`, producer id 3 and level ERROR. -/
theorem formatter_record_witness :
    isIso8601UTCms (get_current_timestamp 2025 8 31 16 32 1 123) = true ∧
    (∃ pre post,
      (generate_formatted_json_log (get_current_timestamp 2025 8 31 16 32 1 123)
          "hello \"world\"" 3 LogLevel.ERROR).data
        = pre ++ (get_current_timestamp 2025 8 31 16 32 1 123).data ++ post) ∧
    (∃ pre post,
      (generate_formatted_json_log (get_current_timestamp 2025 8 31 16 32 1 123)
          "hello \"world\"" 3 LogLevel.ERROR).data
        = pre ++ (level_to_string LogLevel.ERROR).data ++ post) ∧
    (∃ pre post,
      (generate_formatted_json_log (get_current_timestamp 2025 8 31 16 32 1 123)
          "hello \"world\"" 3 LogLevel.ERROR).data
        = pre ++ (toString (3 : Int)).data ++ post) ∧
    (∃ pre post,
      (generate_formatted_json_log (get_current_timestamp 2025 8 31 16 32 1 123)
          "hello \"world\"" 3 LogLevel.ERROR).data
        = pre ++ escape_json_string ("hello \"world\"" : String).data ++ post) ∧
    validJsonStringBody (escape_json_string ("hello \"world\"" : String).data) = true ∧
    validJsonStringBody (escape_json_string
      (get_current_timestamp 2025 8 31 16 32 1 123).data) = true ∧
    validJsonStringBody (escape_json_string (level_to_string LogLevel.ERROR).data) = true :=
  formatter_record 2025 8 31 16 32 1 123 "hello \"world\"" 3 LogLevel.ERROR
    (by decide) (by decide) (by decide) (by decide) (by decide) (by decide)
    (by decide) (by decide) (by decide)

end SpdLogger
